import Mathlib

/-!
Verification of the WaveDrom project front end
(`python/wavedrom_project.py`): a shallow embedding of the
`WaveDromProject` construction pipeline (content resolution, JSON5 parse
adapter, diagram classification, attribute extraction) together with
theorems about its behaviour.

The external collaborators — the filesystem (`os.path.isfile`, `open`,
`read`) and the JSON5 parser (`pyjson5.loads`) — are modelled as an
explicit environment parameter `Env`, since the Python code treats them
as black boxes.
-/

set_option autoImplicit false

namespace WaveDrom

/-- A JSON5 value as produced by the external `pyjson5.loads` parser:
nested mappings, ordered sequences, or scalars.  A Python `dict` is
modelled as `jobj` over an association list of string keys (first
occurrence wins on lookup, matching a `dict`, which holds each key
once). -/
inductive JValue where
  | jnull
  | jbool (b : Bool)
  | jnum (n : Int)
  | jstr (s : String)
  | jarr (elems : List JValue)
  | jobj (fields : List (String × JValue))

/-- `isinstance(v, list)` on a parsed JSON5 value. -/
def JValue.isArr : JValue → Bool
  | .jarr _ => true
  | _ => false

/-- A Python exception as raised by `wavedrom_project.py`: the code
raises exactly two exception classes, `FileNotFoundError` and
`ValueError`, each carrying a message string. -/
inductive PyExc where
  | fileNotFoundError (msg : String)
  | valueError (msg : String)

/-- The Python exception class name of a raised exception — what a
caller branching with `except FileNotFoundError:` / `except ValueError:`
clauses can see. -/
def PyExc.pyClass : PyExc → String
  | .fileNotFoundError _ => "FileNotFoundError"
  | .valueError _ => "ValueError"

/-- The external environment of a construction: the filesystem queried
by `os.path.isfile` and `open(...).read()` (reading may fail with an
I/O or encoding exception, carried as a message), and the external
`pyjson5.loads` parser (which returns a value or raises, carried as a
message). -/
structure Env where
  isFile : String → Bool
  readFile : String → Except String String
  parse : String → Except String JValue

/-- Python `str.endswith(pat)`: suffix match on the character sequence
of the whole input string. -/
def pyEndsWith (s pat : String) : Bool :=
  pat.data.isSuffixOf s.data

/-- Lookup in a parsed mapping: Python `key in d` / `d[key]` / `d.get`
on the association-list model of a `dict`. -/
def jLookup : List (String × JValue) → String → Option JValue
  | [], _ => none
  | (k2, v) :: rest, k => if k2 = k then some v else jLookup rest k

/-- Error message of `_get_content` when reading an existing file
fails: `f"Error reading file {input_data}: {str(e)}"`. -/
def readErrorMsg (path e : String) : String :=
  "Error reading file " ++ path ++ ": " ++ e

/-- Error message of `_parse_json5` when `pyjson5.loads` raises:
`f"[Parse Error]: Invalid JSON5 format - {str(e)}"`. -/
def parseErrorMsg (e : String) : String :=
  "[Parse Error]: Invalid JSON5 format - " ++ e

/-- Error message of `_parse_json5` when the parsed value is not a
`dict`. -/
def rootObjectMsg : String :=
  "[Semantic]: The root has to be an Object: \"\x7bsignal:[...]\x7d\""

/-- Error message of `_determine_diagram_type` when `signal` is present
but not a list. -/
def signalArrayMsg : String :=
  "[Semantic]: \"signal\" object has to be an Array \"signal:[]\""

/-- Error message of `_determine_diagram_type` when `signal` is absent
and `assign` is present but not a list. -/
def assignArrayMsg : String :=
  "[Semantic]: \"assign\" object has to be an Array \"assign:[]\""

/-- Error message of `_determine_diagram_type` when none of the three
recognized keys is present. -/
def missingKeyMsg : String :=
  "[Semantic]: \"signal:[...]\", \"assign:[...]\", or \"reg:[...]\" property is missing inside the root Object"

/-- `WaveDromProject._get_content`: if the input string ends with
`.json5` or `.json` it is treated as a file path (read it if it exists,
re-signalling a read failure as `ValueError`; raise `FileNotFoundError`
if it does not exist); otherwise the input is returned verbatim as raw
JSON5 content. -/
def getContent (env : Env) (input_data : String) : Except PyExc String :=
  if pyEndsWith input_data ".json5" || pyEndsWith input_data ".json" then
    if env.isFile input_data then
      match env.readFile input_data with
      | .ok content => .ok content
      | .error e => .error (.valueError (readErrorMsg input_data e))
    else
      .error (.fileNotFoundError ("File not found: " ++ input_data))
  else
    .ok input_data

/-- `WaveDromProject._parse_json5`: delegate to `pyjson5.loads`,
re-signalling any parser failure as a `ValueError` with the
`[Parse Error]` prefix; then reject any parsed value that is not a
`dict` with a `ValueError` with the `[Semantic]` prefix. -/
def parseJson5 (env : Env) (content : String) : Except PyExc (List (String × JValue)) :=
  match env.parse content with
  | .error e => .error (.valueError (parseErrorMsg e))
  | .ok (.jobj fields) => .ok fields
  | .ok _ => .error (.valueError rootObjectMsg)

/-- `WaveDromProject._determine_diagram_type`: priority-ordered
classification over the top-level keys `signal`, `assign`, `reg`, with
an array-shape check for `signal` and `assign` but not for `reg`. -/
def determineDiagramType (source : List (String × JValue)) : Except PyExc String :=
  match jLookup source "signal" with
  | some v =>
    if v.isArr then .ok "signal"
    else .error (.valueError signalArrayMsg)
  | none =>
    match jLookup source "assign" with
    | some v =>
      if v.isArr then .ok "assign"
      else .error (.valueError assignArrayMsg)
    | none =>
      match jLookup source "reg" with
      | some _ => .ok "reg"
      | none => .error (.valueError missingKeyMsg)

/-- `WaveDromProject._extract_attributes`: `self.source.get(key, {})`
for `config`, `head` and `foot` — the stored value verbatim when the
key is present, the empty mapping when absent. -/
def extractAttributes (source : List (String × JValue)) : JValue × JValue × JValue :=
  ((jLookup source "config").getD (.jobj []),
   (jLookup source "head").getD (.jobj []),
   (jLookup source "foot").getD (.jobj []))

/-- A fully constructed `WaveDromProject`: the parsed document, the
resolved diagram type and the three extracted attribute values. -/
structure WaveDromProject where
  source : List (String × JValue)
  diagram_type : String
  config : JValue
  head : JValue
  foot : JValue

/-- `WaveDromProject.__init__`: resolve the content, parse it,
classify the diagram type and extract the attributes; any exception
raised by a stage propagates and no project is returned. -/
def mkProject (env : Env) (input_data : String) : Except PyExc WaveDromProject :=
  match getContent env input_data with
  | .error e => .error e
  | .ok content =>
    match parseJson5 env content with
    | .error e => .error e
    | .ok source =>
      match determineDiagramType source with
      | .error e => .error e
      | .ok dt =>
        .ok { source := source
            , diagram_type := dt
            , config := (extractAttributes source).1
            , head := (extractAttributes source).2.1
            , foot := (extractAttributes source).2.2 }

/-- The error kind of the four-kind taxonomy of the design (`NotFound`,
`InvalidInput`, `ParseError`, `SemanticError`), as a caller of the
construction can decode it from the raised exception: `NotFound` is the
distinct class `FileNotFoundError`; the three `ValueError` kinds are
told apart by the fixed message prefixes `"[Parse Error]"`,
`"[Semantic]"` and (for file-read failures) neither. -/
def specErrorKind : PyExc → String
  | .fileNotFoundError _ => "NotFound"
  | .valueError msg =>
    match msg.data with
    | '[' :: 'P' :: _ => "ParseError"
    | '[' :: 'S' :: _ => "SemanticError"
    | _ => "InvalidInput"

/-! ### Test fixtures

Concrete environments used by the witness theorems.  The parser is a
finite table from document text to parsed value; any text not in the
table is a parse failure. -/

/-- A document with all three recognized keys. -/
def sigDoc : List (String × JValue) :=
  [("signal", .jarr []), ("assign", .jnum 1), ("reg", .jnum 2)]

/-- A document whose `signal` is not an array while `assign` and `reg`
hold arrays. -/
def sigBadDoc : List (String × JValue) :=
  [("signal", .jstr "not an array"), ("assign", .jarr []), ("reg", .jarr [])]

/-- A document with `assign` and `reg` but no `signal`. -/
def asgDoc : List (String × JValue) :=
  [("assign", .jarr []), ("reg", .jnum 2)]

/-- A document whose only recognized key `assign` is not an array. -/
def asgBadDoc : List (String × JValue) :=
  [("assign", .jstr "x")]

/-- A document whose only recognized key is `reg`, holding a string,
with a scalar under `config`. -/
def regAnyDoc : List (String × JValue) :=
  [("reg", .jstr "anything"), ("config", .jnum 7)]

/-- A document with `signal`, `config`, `head` and `foot`. -/
def attrsDoc : List (String × JValue) :=
  [ ("signal", .jarr [.jobj [("name", .jstr "test"), ("wave", .jstr "01")]])
  , ("config", .jobj [("hscale", .jnum 2)])
  , ("head", .jobj [("text", .jstr "H")])
  , ("foot", .jobj [("text", .jstr "F")]) ]

/-- A document with none of the three recognized keys. -/
def noKeysDoc : List (String × JValue) :=
  [("config", .jobj [])]

/-- Parse table of the test environment. -/
def testDocs : List (String × JValue) :=
  [ ("sig", .jobj sigDoc)
  , ("sigbad", .jobj sigBadDoc)
  , ("asg", .jobj asgDoc)
  , ("asgbad", .jobj asgBadDoc)
  , ("regany", .jobj regAnyDoc)
  , ("attrs", .jobj attrsDoc)
  , ("arrroot", .jarr [.jstr "not", .jstr "an", .jstr "object"])
  , ("nokeys", .jobj noKeysDoc) ]

/-- Test environment: no file exists, reads fail, and the parser is the
finite table `testDocs`. -/
def testEnv : Env where
  isFile := fun _ => false
  readFile := fun _ => .error "io failure"
  parse := fun s =>
    match jLookup testDocs s with
    | some v => .ok v
    | none => .error "bad syntax"

/-- Test environment in which every path names an existing file whose
read fails — exercises the `InvalidInput` branch. -/
def testEnvRead : Env where
  isFile := fun _ => true
  readFile := fun _ => .error "permission denied"
  parse := fun _ => .error "unreached"

/-! ### Helper lemmas -/

/-- Case analysis of a successful classification: the resolved type is
one of the three recognized keys, that key is present, earlier keys in
the priority order are absent, and for `signal`/`assign` the stored
value is an array. -/
theorem determineDiagramType_ok {src : List (String × JValue)} {dt : String}
    (h : determineDiagramType src = .ok dt) :
    (dt = "signal" ∧ ∃ elems, jLookup src "signal" = some (.jarr elems)) ∨
    (dt = "assign" ∧ jLookup src "signal" = none ∧
      ∃ elems, jLookup src "assign" = some (.jarr elems)) ∨
    (dt = "reg" ∧ jLookup src "signal" = none ∧ jLookup src "assign" = none ∧
      (jLookup src "reg").isSome = true) := by
  unfold determineDiagramType at h
  cases hs : jLookup src "signal" with
  | some v =>
    rw [hs] at h
    cases v <;> simp [JValue.isArr] at h
    exact Or.inl ⟨h.symm, _, rfl⟩
  | none =>
    rw [hs] at h
    cases ha : jLookup src "assign" with
    | some v =>
      rw [ha] at h
      cases v <;> simp [JValue.isArr] at h
      exact Or.inr (Or.inl ⟨h.symm, rfl, _, rfl⟩)
    | none =>
      rw [ha] at h
      cases hr : jLookup src "reg" with
      | some v =>
        rw [hr] at h
        simp at h
        exact Or.inr (Or.inr ⟨h.symm, rfl, rfl, rfl⟩)
      | none => rw [hr] at h; simp at h

/-- Decomposition of a successful construction into its stages. -/
theorem mkProject_eq_ok {env : Env} {input_data : String} {p : WaveDromProject}
    (h : mkProject env input_data = .ok p) :
    ∃ content, getContent env input_data = .ok content ∧
      parseJson5 env content = .ok p.source ∧
      determineDiagramType p.source = .ok p.diagram_type ∧
      p.config = (extractAttributes p.source).1 ∧
      p.head = (extractAttributes p.source).2.1 ∧
      p.foot = (extractAttributes p.source).2.2 := by
  unfold mkProject at h
  split at h
  next e hg => simp at h
  next content hg =>
    split at h
    next e hp => simp at h
    next source hp =>
      split at h
      next e hd => simp at h
      next dt hd =>
        injection h with h
        subst h
        exact ⟨content, hg, hp, hd, rfl, rfl, rfl⟩

/-! ### Claims -/

/-- Claim C1: classification is priority-ordered — `signal` is tested
first and, when present, decides the outcome (kind `signal` or its
shape error) regardless of `assign`/`reg`; `assign` is tested only when
`signal` is absent; `reg` only when both are absent; when none of the
three keys is present, classification fails with a `SemanticError`
whose message names all three accepted keys. -/
theorem C1_classification_priority (src : List (String × JValue)) :
    ((jLookup src "signal").isSome = true →
      determineDiagramType src = .ok "signal" ∨
      determineDiagramType src = .error (.valueError signalArrayMsg)) ∧
    (jLookup src "signal" = none → (jLookup src "assign").isSome = true →
      determineDiagramType src = .ok "assign" ∨
      determineDiagramType src = .error (.valueError assignArrayMsg)) ∧
    (jLookup src "signal" = none → jLookup src "assign" = none →
      (jLookup src "reg").isSome = true →
      determineDiagramType src = .ok "reg") ∧
    (jLookup src "signal" = none → jLookup src "assign" = none →
      jLookup src "reg" = none →
      determineDiagramType src = .error (.valueError missingKeyMsg) ∧
      "signal".data <:+: missingKeyMsg.data ∧
      "assign".data <:+: missingKeyMsg.data ∧
      "reg".data <:+: missingKeyMsg.data) := by
  refine ⟨?_, ?_, ?_, ?_⟩
  · intro h
    cases hs : jLookup src "signal" with
    | none => rw [hs] at h; simp at h
    | some v =>
      by_cases ha : v.isArr = true
      · exact Or.inl (by unfold determineDiagramType; rw [hs]; simp [ha])
      · exact Or.inr (by unfold determineDiagramType; rw [hs]; simp [ha])
  · intro hs h
    cases ha : jLookup src "assign" with
    | none => rw [ha] at h; simp at h
    | some v =>
      by_cases hb : v.isArr = true
      · exact Or.inl (by unfold determineDiagramType; rw [hs, ha]; simp [hb])
      · exact Or.inr (by unfold determineDiagramType; rw [hs, ha]; simp [hb])
  · intro hs ha h
    cases hr : jLookup src "reg" with
    | none => rw [hr] at h; simp at h
    | some v => unfold determineDiagramType; rw [hs, ha, hr]
  · intro hs ha hr
    refine ⟨by unfold determineDiagramType; rw [hs, ha, hr], by decide, by decide, by decide⟩

/-- Witness for C1 at concrete mappings, covering every branch of the
claim: a mapping with all three keys classifies as `signal`; one with
`assign` and `reg` only classifies as `assign`; one with `reg` only
classifies as `reg`; one with none of the keys fails with the
missing-key `SemanticError`. -/
theorem C1_witness :
    (determineDiagramType sigDoc = .ok "signal" ∨
     determineDiagramType sigDoc = .error (.valueError signalArrayMsg)) ∧
    (determineDiagramType asgDoc = .ok "assign" ∨
     determineDiagramType asgDoc = .error (.valueError assignArrayMsg)) ∧
    determineDiagramType regAnyDoc = .ok "reg" ∧
    determineDiagramType noKeysDoc = .error (.valueError missingKeyMsg) := by
  refine ⟨(C1_classification_priority sigDoc).1 rfl,
          (C1_classification_priority asgDoc).2.1 rfl rfl,
          (C1_classification_priority regAnyDoc).2.2.1 rfl rfl rfl,
          ((C1_classification_priority noKeysDoc).2.2.2 rfl rfl rfl).1⟩

/-- Claim C2: shape validation applies only to the key that won
classification — a non-array `signal` value fails with the `signal`
shape error even when `assign` or `reg` are present with valid shapes,
and, when `signal` is absent, a non-array `assign` value fails with the
`assign` shape error. -/
theorem C2_shape_validation (src : List (String × JValue)) :
    (∀ v, jLookup src "signal" = some v → v.isArr = false →
      determineDiagramType src = .error (.valueError signalArrayMsg)) ∧
    (jLookup src "signal" = none →
      ∀ v, jLookup src "assign" = some v → v.isArr = false →
        determineDiagramType src = .error (.valueError assignArrayMsg)) := by
  constructor
  · intro v hs hv
    simp [determineDiagramType, hs, hv]
  · intro hs v ha hv
    simp [determineDiagramType, hs, ha, hv]

/-- Witness for C2: a mapping whose `signal` is a string while `assign`
and `reg` hold valid arrays still fails with the `signal` shape error,
and a mapping without `signal` whose `assign` is a string fails with
the `assign` shape error. -/
theorem C2_witness :
    determineDiagramType sigBadDoc = .error (.valueError signalArrayMsg) ∧
    determineDiagramType asgBadDoc = .error (.valueError assignArrayMsg) := by
  exact ⟨(C2_shape_validation sigBadDoc).1 (.jstr "not an array") rfl rfl,
         (C2_shape_validation asgBadDoc).2 rfl (.jstr "x") rfl rfl⟩

/-- Claim C3: an input string ending in `.json5` or `.json` that names
no existing file makes construction fail with a `NotFound` error
identifying the path, for every environment — hence even when the
string would parse as document text; an input string not ending in one
of those two suffixes is passed through verbatim as document text for
every environment — hence with no existence check. -/
theorem C3_content_resolution (env : Env) (input_data : String) :
    ((pyEndsWith input_data ".json5" || pyEndsWith input_data ".json") = true →
      env.isFile input_data = false →
      getContent env input_data = .error (.fileNotFoundError ("File not found: " ++ input_data)) ∧
      mkProject env input_data = .error (.fileNotFoundError ("File not found: " ++ input_data))) ∧
    ((pyEndsWith input_data ".json5" || pyEndsWith input_data ".json") = false →
      getContent env input_data = .ok input_data) := by
  constructor
  · intro hsuf hfile
    have hg : getContent env input_data =
        .error (.fileNotFoundError ("File not found: " ++ input_data)) := by
      simp [getContent, hsuf, hfile]
    exact ⟨hg, by simp [mkProject, hg]⟩
  · intro hsuf
    simp [getContent, hsuf]

/-- Witness for C3: in the test environment, where no file exists,
`missing.json5` fails with `FileNotFoundError` even though `sig`, which
has no recognized suffix, resolves verbatim. -/
theorem C3_witness :
    mkProject testEnv "missing.json5" = .error (.fileNotFoundError ("File not found: " ++ "missing.json5")) ∧
    getContent testEnv "sig" = .ok "sig" :=
  ⟨((C3_content_resolution testEnv "missing.json5").1 (by decide) rfl).2,
   (C3_content_resolution testEnv "sig").2 (by decide)⟩

/-- Claim C4: the parse adapter fails with a `ParseError`-kind error
exactly when the external parser fails on the resolved text; a
successful parse of a non-mapping fails with a `SemanticError`-kind
error stating the root must be an object; the two kinds are distinct;
a successful parse of a mapping is returned. -/
theorem C4_parser_adapter (env : Env) (content : String) :
    (∀ e, env.parse content = .error e →
      parseJson5 env content = .error (.valueError (parseErrorMsg e)) ∧
      specErrorKind (.valueError (parseErrorMsg e)) = "ParseError") ∧
    ((∃ exc, parseJson5 env content = .error exc ∧ specErrorKind exc = "ParseError") →
      ∃ e, env.parse content = .error e) ∧
    (∀ v, env.parse content = .ok v → (∀ fields, v ≠ .jobj fields) →
      parseJson5 env content = .error (.valueError rootObjectMsg) ∧
      specErrorKind (.valueError rootObjectMsg) = "SemanticError") ∧
    (∀ fields, env.parse content = .ok (.jobj fields) →
      parseJson5 env content = .ok fields) ∧
    ("ParseError" : String) ≠ "SemanticError" := by
  refine ⟨?_, ?_, ?_, ?_, by decide⟩
  · intro e he
    exact ⟨by simp [parseJson5, he], rfl⟩
  · rintro ⟨exc, hexc, hkind⟩
    cases hp : env.parse content with
    | error e => exact ⟨e, rfl⟩
    | ok v =>
      exfalso
      cases v <;> simp [parseJson5, hp] at hexc <;>
        (subst hexc; exact absurd hkind (by decide))
  · intro v hv hnobj
    cases v
    case jobj fields => exact absurd rfl (hnobj fields)
    all_goals exact ⟨by simp [parseJson5, hv], rfl⟩
  · intro fields hf
    simp [parseJson5, hf]

/-- Witness for C4: in the test environment, unknown text fails as a
parse error, the sequence-rooted document `arrroot` fails as a semantic
error, and the mapping-rooted document `sig` parses to its fields. -/
theorem C4_witness :
    parseJson5 testEnv "zzz" = .error (.valueError (parseErrorMsg "bad syntax")) ∧
    parseJson5 testEnv "arrroot" = .error (.valueError rootObjectMsg) ∧
    parseJson5 testEnv "sig" = .ok sigDoc :=
  ⟨((C4_parser_adapter testEnv "zzz").1 "bad syntax" rfl).1,
   ((C4_parser_adapter testEnv "arrroot").2.2.1
      (.jarr [.jstr "not", .jstr "an", .jstr "object"]) rfl
      (fun _ h => JValue.noConfusion h)).1,
   (C4_parser_adapter testEnv "sig").2.2.2.1 sigDoc rfl⟩

/-- Claim C5: attribute extraction is unconditional and kind-independent
— in every successfully constructed project, each of `config`, `head`
and `foot` equals the value stored under that key when present (verbatim,
with no shape check) and the empty mapping when absent. -/
theorem C5_attribute_extraction (env : Env) (input_data : String) (p : WaveDromProject)
    (h : mkProject env input_data = .ok p) :
    (∀ v, jLookup p.source "config" = some v → p.config = v) ∧
    (jLookup p.source "config" = none → p.config = .jobj []) ∧
    (∀ v, jLookup p.source "head" = some v → p.head = v) ∧
    (jLookup p.source "head" = none → p.head = .jobj []) ∧
    (∀ v, jLookup p.source "foot" = some v → p.foot = v) ∧
    (jLookup p.source "foot" = none → p.foot = .jobj []) := by
  obtain ⟨content, -, -, -, hc, hh, hf⟩ := mkProject_eq_ok h
  unfold extractAttributes at hc hh hf
  refine ⟨fun v hv => ?_, fun hv => ?_, fun v hv => ?_, fun hv => ?_, fun v hv => ?_, fun hv => ?_⟩ <;>
    simp [hc, hh, hf, hv]

/-- Witness for C5: the project built from `regany` carries the scalar
stored under `config` verbatim (no shape check) and defaults the absent
`head` and `foot` to empty mappings. -/
theorem C5_witness :
    (WaveDromProject.mk regAnyDoc "reg" (JValue.jnum 7) (JValue.jobj []) (JValue.jobj [])).config = JValue.jnum 7 ∧
    (WaveDromProject.mk regAnyDoc "reg" (JValue.jnum 7) (JValue.jobj []) (JValue.jobj [])).head = JValue.jobj [] ∧
    (WaveDromProject.mk regAnyDoc "reg" (JValue.jnum 7) (JValue.jobj []) (JValue.jobj [])).foot = JValue.jobj [] := by
  have h := C5_attribute_extraction testEnv "regany"
    (WaveDromProject.mk regAnyDoc "reg" (JValue.jnum 7) (JValue.jobj []) (JValue.jobj [])) rfl
  exact ⟨h.1 (JValue.jnum 7) rfl, h.2.2.2.1 rfl, h.2.2.2.2.2 rfl⟩

/-- Claim C6: a parsed mapping whose highest-priority recognized key is
`reg` — `signal` and `assign` absent, `reg` present with a value of any
type — makes construction succeed with diagram kind `reg` and no shape
error. -/
theorem C6_reg_no_validation (env : Env) (input_data content : String)
    (src : List (String × JValue))
    (hg : getContent env input_data = .ok content)
    (hp : parseJson5 env content = .ok src)
    (hs : jLookup src "signal" = none) (ha : jLookup src "assign" = none)
    (hr : (jLookup src "reg").isSome = true) :
    ∃ p, mkProject env input_data = .ok p ∧ p.diagram_type = "reg" ∧ p.source = src := by
  have hd : determineDiagramType src = .ok "reg" := by
    cases hrr : jLookup src "reg" with
    | none => rw [hrr] at hr; simp at hr
    | some v => simp [determineDiagramType, hs, ha, hrr]
  exact ⟨⟨src, "reg", (extractAttributes src).1, (extractAttributes src).2.1,
          (extractAttributes src).2.2⟩,
         by simp [mkProject, hg, hp, hd], rfl, rfl⟩

/-- Witness for C6: the `regany` document, whose `reg` holds a string,
constructs successfully with diagram kind `reg`. -/
theorem C6_witness :
    ∃ p, mkProject testEnv "regany" = .ok p ∧ p.diagram_type = "reg" ∧ p.source = regAnyDoc :=
  C6_reg_no_validation testEnv "regany" "regany" regAnyDoc rfl rfl rfl rfl rfl

/-- Claim C7: every trigger of the error table is signalled so that the
caller of construction can recover its kind: a missing file yields the
distinct exception class `FileNotFoundError` (`NotFound`); a failing
read, a parser failure and a non-mapping root all yield `ValueError`
but with the fixed, mutually exclusive message prefixes decoded by
`specErrorKind` into `InvalidInput`, `ParseError` and `SemanticError`;
the four kind labels are pairwise distinct. -/
theorem C7_error_kinds (env : Env) (input_data : String) :
    ((pyEndsWith input_data ".json5" || pyEndsWith input_data ".json") = true →
      env.isFile input_data = false →
      ∃ exc, mkProject env input_data = .error exc ∧
        specErrorKind exc = "NotFound" ∧ exc.pyClass = "FileNotFoundError") ∧
    (∀ ioe, (pyEndsWith input_data ".json5" || pyEndsWith input_data ".json") = true →
      env.isFile input_data = true → env.readFile input_data = .error ioe →
      ∃ exc, mkProject env input_data = .error exc ∧
        specErrorKind exc = "InvalidInput" ∧ exc.pyClass = "ValueError") ∧
    (∀ content e, getContent env input_data = .ok content → env.parse content = .error e →
      ∃ exc, mkProject env input_data = .error exc ∧
        specErrorKind exc = "ParseError" ∧ exc.pyClass = "ValueError") ∧
    (∀ content v, getContent env input_data = .ok content → env.parse content = .ok v →
      (∀ fields, v ≠ .jobj fields) →
      ∃ exc, mkProject env input_data = .error exc ∧
        specErrorKind exc = "SemanticError" ∧ exc.pyClass = "ValueError") ∧
    (("NotFound" : String) ≠ "InvalidInput" ∧ ("NotFound" : String) ≠ "ParseError" ∧
     ("NotFound" : String) ≠ "SemanticError" ∧ ("InvalidInput" : String) ≠ "ParseError" ∧
     ("InvalidInput" : String) ≠ "SemanticError" ∧ ("ParseError" : String) ≠ "SemanticError") := by
  refine ⟨?_, ?_, ?_, ?_, by decide, by decide, by decide, by decide, by decide, by decide⟩
  · intro hsuf hfile
    exact ⟨.fileNotFoundError ("File not found: " ++ input_data),
           by simp [mkProject, getContent, hsuf, hfile], rfl, rfl⟩
  · intro ioe hsuf hfile hread
    exact ⟨.valueError (readErrorMsg input_data ioe),
           by simp [mkProject, getContent, hsuf, hfile, hread], rfl, rfl⟩
  · intro content e hg he
    exact ⟨.valueError (parseErrorMsg e),
           by simp [mkProject, hg, parseJson5, he], rfl, rfl⟩
  · intro content v hg hv hnobj
    cases v
    case jobj fields => exact absurd rfl (hnobj fields)
    all_goals exact ⟨.valueError rootObjectMsg,
                     by simp [mkProject, hg, parseJson5, hv], rfl, rfl⟩

/-- Witness for C7: one concrete failure per error-table row, each
decoding to its own kind — `missing.json5` (no file), `denied.json5`
in the read-failing environment, unknown text `zzz`, and the
sequence-rooted document `arrroot`. -/
theorem C7_witness :
    (∃ exc, mkProject testEnv "missing.json5" = .error exc ∧
      specErrorKind exc = "NotFound" ∧ exc.pyClass = "FileNotFoundError") ∧
    (∃ exc, mkProject testEnvRead "denied.json5" = .error exc ∧
      specErrorKind exc = "InvalidInput" ∧ exc.pyClass = "ValueError") ∧
    (∃ exc, mkProject testEnv "zzz" = .error exc ∧
      specErrorKind exc = "ParseError" ∧ exc.pyClass = "ValueError") ∧
    (∃ exc, mkProject testEnv "arrroot" = .error exc ∧
      specErrorKind exc = "SemanticError" ∧ exc.pyClass = "ValueError") :=
  ⟨(C7_error_kinds testEnv "missing.json5").1 (by decide) rfl,
   (C7_error_kinds testEnvRead "denied.json5").2.1 "permission denied" (by decide) rfl rfl,
   (C7_error_kinds testEnv "zzz").2.2.1 "zzz" "bad syntax" rfl rfl,
   (C7_error_kinds testEnv "arrroot").2.2.2.1 "arrroot"
     (.jarr [.jstr "not", .jstr "an", .jstr "object"]) rfl rfl
     (fun _ h => JValue.noConfusion h)⟩

/-- Claim C8: construction is atomic — a failure in any stage
propagates as the error of the whole construction, and a returned
project has every field set from the successful run of every stage;
there is no partially valid project and no silent default. -/
theorem C8_atomic_construction (env : Env) (input_data : String) :
    (∀ exc, getContent env input_data = .error exc → mkProject env input_data = .error exc) ∧
    (∀ content exc, getContent env input_data = .ok content →
      parseJson5 env content = .error exc → mkProject env input_data = .error exc) ∧
    (∀ content src exc, getContent env input_data = .ok content →
      parseJson5 env content = .ok src → determineDiagramType src = .error exc →
      mkProject env input_data = .error exc) ∧
    (∀ p, mkProject env input_data = .ok p →
      ∃ content, getContent env input_data = .ok content ∧
        parseJson5 env content = .ok p.source ∧
        determineDiagramType p.source = .ok p.diagram_type ∧
        p.config = (extractAttributes p.source).1 ∧
        p.head = (extractAttributes p.source).2.1 ∧
        p.foot = (extractAttributes p.source).2.2) := by
  refine ⟨?_, ?_, ?_, fun p h => mkProject_eq_ok h⟩
  · intro exc hg
    simp [mkProject, hg]
  · intro content exc hg hp
    simp [mkProject, hg, hp]
  · intro content src exc hg hp hd
    simp [mkProject, hg, hp, hd]

/-- Witness for C8: in the test environment the failure of each stage is the
failure of the construction — missing file, unparseable text, document with
no recognized key — and the successful construction from `regany`
decomposes into its stages. -/
theorem C8_witness :
    mkProject testEnv "missing.json5" = .error (.fileNotFoundError ("File not found: " ++ "missing.json5")) ∧
    mkProject testEnv "zzz" = .error (.valueError (parseErrorMsg "bad syntax")) ∧
    mkProject testEnv "nokeys" = .error (.valueError missingKeyMsg) ∧
    (∃ content, getContent testEnv "regany" = .ok content ∧
      parseJson5 testEnv content = .ok (WaveDromProject.mk regAnyDoc "reg" (JValue.jnum 7) (JValue.jobj []) (JValue.jobj [])).source ∧
      determineDiagramType (WaveDromProject.mk regAnyDoc "reg" (JValue.jnum 7) (JValue.jobj []) (JValue.jobj [])).source =
        .ok (WaveDromProject.mk regAnyDoc "reg" (JValue.jnum 7) (JValue.jobj []) (JValue.jobj [])).diagram_type ∧
      (WaveDromProject.mk regAnyDoc "reg" (JValue.jnum 7) (JValue.jobj []) (JValue.jobj [])).config =
        (extractAttributes (WaveDromProject.mk regAnyDoc "reg" (JValue.jnum 7) (JValue.jobj []) (JValue.jobj [])).source).1 ∧
      (WaveDromProject.mk regAnyDoc "reg" (JValue.jnum 7) (JValue.jobj []) (JValue.jobj [])).head =
        (extractAttributes (WaveDromProject.mk regAnyDoc "reg" (JValue.jnum 7) (JValue.jobj []) (JValue.jobj [])).source).2.1 ∧
      (WaveDromProject.mk regAnyDoc "reg" (JValue.jnum 7) (JValue.jobj []) (JValue.jobj [])).foot =
        (extractAttributes (WaveDromProject.mk regAnyDoc "reg" (JValue.jnum 7) (JValue.jobj []) (JValue.jobj [])).source).2.2) :=
  ⟨(C8_atomic_construction testEnv "missing.json5").1 _ rfl,
   (C8_atomic_construction testEnv "zzz").2.1 "zzz" _ rfl rfl,
   (C8_atomic_construction testEnv "nokeys").2.2.1 "nokeys" noKeysDoc _ rfl rfl rfl,
   (C8_atomic_construction testEnv "regany").2.2.2
     (WaveDromProject.mk regAnyDoc "reg" (JValue.jnum 7) (JValue.jobj []) (JValue.jobj [])) rfl⟩

/-- Claim C9: construction is deterministic — two constructions from
the identical input string, with the environment unchanged, yield the
same outcome and, on success, projects with identical source, diagram
type, config, head and foot.  The embedding threads the environment
(filesystem and parser) explicitly; there is no other state a
construction could read or mutate. -/
theorem C9_deterministic (env : Env) (input_data : String) :
    mkProject env input_data = mkProject env input_data ∧
    (∀ p1 p2, mkProject env input_data = .ok p1 → mkProject env input_data = .ok p2 →
      p1.source = p2.source ∧ p1.diagram_type = p2.diagram_type ∧
      p1.config = p2.config ∧ p1.head = p2.head ∧ p1.foot = p2.foot) := by
  refine ⟨rfl, fun p1 p2 h1 h2 => ?_⟩
  rw [h1] at h2
  injection h2 with h2
  subst h2
  exact ⟨rfl, rfl, rfl, rfl, rfl⟩

/-- Witness for C9: two constructions from `regany` in the test
environment agree on every field. -/
theorem C9_witness :
    (WaveDromProject.mk regAnyDoc "reg" (JValue.jnum 7) (JValue.jobj []) (JValue.jobj [])).source =
      (WaveDromProject.mk regAnyDoc "reg" (JValue.jnum 7) (JValue.jobj []) (JValue.jobj [])).source ∧
    (WaveDromProject.mk regAnyDoc "reg" (JValue.jnum 7) (JValue.jobj []) (JValue.jobj [])).diagram_type =
      (WaveDromProject.mk regAnyDoc "reg" (JValue.jnum 7) (JValue.jobj []) (JValue.jobj [])).diagram_type := by
  have h := (C9_deterministic testEnv "regany").2
    (WaveDromProject.mk regAnyDoc "reg" (JValue.jnum 7) (JValue.jobj []) (JValue.jobj []))
    (WaveDromProject.mk regAnyDoc "reg" (JValue.jnum 7) (JValue.jobj []) (JValue.jobj []))
    rfl rfl
  exact ⟨h.1, h.2.1⟩

/-- Claim C10: invariant of every successfully constructed project —
the diagram type is one of `signal`, `assign`, `reg`; the key equal to
the diagram type is present in the source mapping of the project; and for
`signal`/`assign` the value stored under that key is an array. -/
theorem C10_project_invariant (env : Env) (input_data : String) (p : WaveDromProject)
    (h : mkProject env input_data = .ok p) :
    (p.diagram_type = "signal" ∨ p.diagram_type = "assign" ∨ p.diagram_type = "reg") ∧
    (jLookup p.source p.diagram_type).isSome = true ∧
    (p.diagram_type = "signal" ∨ p.diagram_type = "assign" →
      ∃ elems, jLookup p.source p.diagram_type = some (.jarr elems)) := by
  obtain ⟨content, -, -, hd, -⟩ := mkProject_eq_ok h
  rcases determineDiagramType_ok hd with ⟨hdt, elems, hsig⟩ | ⟨hdt, -, elems, hasg⟩ | ⟨hdt, -, -, hreg⟩
  · exact ⟨Or.inl hdt, by rw [hdt, hsig]; rfl, fun _ => ⟨elems, by rw [hdt, hsig]⟩⟩
  · exact ⟨Or.inr (Or.inl hdt), by rw [hdt, hasg]; rfl, fun _ => ⟨elems, by rw [hdt, hasg]⟩⟩
  · refine ⟨Or.inr (Or.inr hdt), by rw [hdt]; exact hreg, fun hc => ?_⟩
    rw [hdt] at hc
    rcases hc with hc | hc <;> exact absurd hc (by decide)

/-- Witness for C10: the invariant holds for the project built from the
`regany` document in the test environment. -/
theorem C10_witness :
    ((WaveDromProject.mk regAnyDoc "reg" (JValue.jnum 7) (JValue.jobj []) (JValue.jobj [])).diagram_type = "signal" ∨
     (WaveDromProject.mk regAnyDoc "reg" (JValue.jnum 7) (JValue.jobj []) (JValue.jobj [])).diagram_type = "assign" ∨
     (WaveDromProject.mk regAnyDoc "reg" (JValue.jnum 7) (JValue.jobj []) (JValue.jobj [])).diagram_type = "reg") ∧
    (jLookup regAnyDoc "reg").isSome = true := by
  have h := C10_project_invariant testEnv "regany"
    (WaveDromProject.mk regAnyDoc "reg" (JValue.jnum 7) (JValue.jobj []) (JValue.jobj [])) rfl
  exact ⟨h.1, h.2.1⟩

end WaveDrom
